import Mathlib

/-!
Verification development for `UseGEE_Download_S2_Imgs.py`.

The source file has two functions:

* `Process_Downloaded_Imgs(crsTransform, download_path)` — opens the raster
  file at `download_path`, crops the data with `download_data[:, 1:-1, 1:-1]`,
  and rewrites the file with `rasterio.transform.Affine(*crsTransform)`,
  EPSG:4326 and LZW compression.

* `Sentinel2_TOA_Download(...)` — queries an image collection, and for each
  candidate image computes a coverage fraction `valid_pixels('B2') / total`,
  downloads the image (after `divide(10000)`) when the fraction reaches
  `coverage_ratio_threshold`, using the affine tuple
  `(resample_resolution, 0, lon_min, 0, -resample_resolution, lat_max)`,
  and optionally post-processes the file.

We embed both shallowly.  Pixel values and geographic coordinates are
modelled as rationals; remote calls that can raise are modelled by explicit
failure flags on the candidate, and an uncaught exception surfaces as the
`Option String` component of the loop result (the list component being the
scenes written to disk before the exception).
-/

/-- Six-parameter affine transform, laid out as the source tuple
`(x_scale, x_shear, x_origin, y_shear, y_scale, y_origin)`
(the argument order of `rasterio.transform.Affine`). -/
structure GeoTransform where
  xScale : ℚ
  xShear : ℚ
  xOrigin : ℚ
  yShear : ℚ
  yScale : ℚ
  yOrigin : ℚ
deriving DecidableEq, Repr

/-- Affine application: pixel (column `px`, row `py`) to geographic
coordinates, following rasterio `Affine(a, b, c, d, e, f)`:
`x = a*px + b*py + c`, `y = d*px + e*py + f`. -/
def GeoTransform.applyAt (t : GeoTransform) (px py : ℚ) : ℚ × ℚ :=
  (t.xScale * px + t.xShear * py + t.xOrigin,
   t.yShear * px + t.yScale * py + t.yOrigin)

/-- The raster file state relevant to the claims: the 3-D pixel buffer
(bands, rows, cols) and the geotransform written into the file header. -/
structure RasterFile where
  data : List (List (List ℚ))
  transform : GeoTransform
deriving DecidableEq, Repr

/-- Python slice `l[1:-1]`: drop the first and the last element
(empty result when the list has fewer than three elements). -/
def sliceInterior (l : List α) : List α :=
  (l.drop 1).dropLast

/-- The crop `download_data[:, 1:-1, 1:-1]` of the source: every band plane
is kept, and in every plane the first/last row and first/last column are
removed. -/
def cropBorder (data : List (List (List ℚ))) : List (List (List ℚ)) :=
  data.map (fun plane => (sliceInterior plane).map sliceInterior)

/-- Embedding of `Process_Downloaded_Imgs(crsTransform, download_path)`:
read the raster file, crop `[:, 1:-1, 1:-1]`, and rewrite the file at the
same path with `rasterio.transform.Affine(*crsTransform)` — the transform
passed in, unchanged. -/
def Process_Downloaded_Imgs (crsTransform : GeoTransform) (f : RasterFile) :
    RasterFile :=
  { data := cropBorder f.data, transform := crsTransform }

/-- Shape predicate for a 3-D buffer: `b` band planes, each of `h` rows of
`w` pixels. -/
def HasDims (data : List (List (List ℚ))) (b h w : Nat) : Prop :=
  data.length = b ∧ ∀ plane ∈ data, plane.length = h ∧ ∀ row ∈ plane, row.length = w

instance (data : List (List (List ℚ))) (b h w : Nat) :
    Decidable (HasDims data b h w) := by
  unfold HasDims; infer_instance

/-- Pixel lookup in a 3-D buffer: band `bi`, row `i`, column `j`; `none`
when any index is out of range. -/
def pixelAt (data : List (List (List ℚ))) (bi i j : Nat) : Option ℚ :=
  data[bi]?.bind fun plane => plane[i]?.bind fun row => row[j]?

/-- One candidate image of the filtered, time-sorted collection, as the loop
body sees it after `clip(rect_polygon)`.  `validCount b` is the result of
`reduceRegion(ee.Reducer.count())` on band `b` over the rectangle;
`totalCount` is the count over the reprojected all-ones image.  The two
failure flags model the remote calls of one iteration raising an exception
(coverage evaluation via `getInfo`, and `geemap.download_ee_image`).
`rawData` holds the clipped image's band planes of digital numbers, and
`downloadedData` is the raster the export collaborator writes to disk. -/
structure Candidate where
  timestampMs : Int
  validCount : String → Nat
  totalCount : Nat
  coverageFails : Bool
  exportFails : Bool
  rawData : List (List (List ℚ))
  downloadedData : List (List (List ℚ))

/-- The coverage fraction the loop computes:
`selected_img.select('B2').reduceRegion(count) / total`.  The band is the
literal `'B2'` in the source; the `bands` argument of the enclosing function
does not enter this computation (it is listed here only to mirror the
source's scope). -/
def coverageOf (bands : List String) (c : Candidate) : ℚ :=
  (c.validCount "B2" : ℚ) / (c.totalCount : ℚ)

/-- Modelled from the spec (§4.2), for comparison with `coverageOf`: the
coverage fraction with `reference_band` fixed to the first entry of `bands`. -/
def coverageOfSpec (bands : List String) (c : Candidate) : ℚ :=
  (c.validCount (bands.headD "B2") : ℚ) / (c.totalCount : ℚ)

/-- The acceptance test of the loop:
`if coverage_ratio >= coverage_ratio_threshold`. -/
def coverageAccepted (cov thr : ℚ) : Bool :=
  thr ≤ cov

/-- The affine tuple built on acceptance:
`(resample_resolution, 0, lon_min, 0, -resample_resolution, lat_max)`. -/
def crsTransformOf (resample_resolution lon_min lat_max : ℚ) : GeoTransform :=
  ⟨resample_resolution, 0, lon_min, 0, -resample_resolution, lat_max⟩

/-- Embedding of `selected_img.divide(10000)`: every pixel value of every
band plane is divided by 10000. -/
def imgDivide10000 (data : List (List (List ℚ))) : List (List (List ℚ)) :=
  data.map (fun plane => plane.map (fun row => row.map (fun v => v / 10000)))

/-- What one accepted candidate contributes: the acquisition timestamp read
from `system:time_start`, the coverage value that passed the test, the
affine tuple used for the export, the image handed to
`geemap.download_ee_image` (after `divide(10000)`), and the raster file on
disk once the iteration finishes. -/
structure AcceptedScene where
  timestampMs : Int
  coverage : ℚ
  transform : GeoTransform
  imageSent : List (List (List ℚ))
  file : RasterFile
deriving DecidableEq, Repr

/-- The candidate loop of `Sentinel2_TOA_Download`, over the already
filtered and time-sorted candidate list.  The result pairs the scenes
written to disk (in enumeration order) with the first uncaught exception,
if any: the source has no `try/except`, so an exception raised while
evaluating or exporting a candidate propagates out of the `for` loop and
no later candidate is visited.  Files written by earlier iterations remain
on disk, hence the list component keeps the scenes completed before the
failure. -/
def Sentinel2_TOA_Download (bands : List String)
    (coverage_ratio_threshold resample_resolution : ℚ)
    (lon_min lat_max : ℚ) (is_postprocess : Bool) :
    List Candidate → List AcceptedScene × Option String
  | [] => ([], none)
  | c :: rest =>
    if c.coverageFails then ([], some "ProviderUnavailable")
    else
      let cov := coverageOf bands c
      if coverageAccepted cov coverage_ratio_threshold then
        if c.exportFails then ([], some "ExportFailed")
        else
          let t := crsTransformOf resample_resolution lon_min lat_max
          let exported : RasterFile := ⟨c.downloadedData, t⟩
          let final := if is_postprocess then Process_Downloaded_Imgs t exported
                       else exported
          let scene : AcceptedScene :=
            ⟨c.timestampMs, cov, t, imgDivide10000 c.rawData, final⟩
          let tail := Sentinel2_TOA_Download bands coverage_ratio_threshold
            resample_resolution lon_min lat_max is_postprocess rest
          (scene :: tail.1, tail.2)
      else Sentinel2_TOA_Download bands coverage_ratio_threshold
        resample_resolution lon_min lat_max is_postprocess rest

/-- Concrete transform `(1, 0, 10, 0, -1, 20)` used in closed instances. -/
def tEx : GeoTransform := ⟨1, 0, 10, 0, -1, 20⟩

/-- Concrete one-band 2-by-2 raster file. -/
def fEx2 : RasterFile := ⟨[[[1, 2], [3, 4]]], tEx⟩

/-- Concrete one-band 3-by-3 raster file. -/
def fEx3 : RasterFile := ⟨[[[1, 2, 3], [4, 5, 6], [7, 8, 9]]], tEx⟩

/-- Candidate whose band `B3` is fully valid (100 of 100 pixels) while band
`B2` is only half valid (50 of 100): it separates the hardcoded reference
band from the first entry of a band list such as `['B3', 'B4']`. -/
def candB3 : Candidate :=
  { timestampMs := 0
    validCount := fun b => if b = "B3" then 100 else 50
    totalCount := 100
    coverageFails := false
    exportFails := false
    rawData := []
    downloadedData := [] }

/-- Candidate whose remote coverage evaluation raises. -/
def candFail : Candidate :=
  { timestampMs := 0
    validCount := fun _ => 100
    totalCount := 100
    coverageFails := true
    exportFails := false
    rawData := []
    downloadedData := [] }

/-- Fully covered candidate whose remote calls all succeed; its raw digital
numbers are a single 1-by-1 plane holding 10000, and the export collaborator
writes a single 1-by-1 plane holding 1. -/
def candGood : Candidate :=
  { timestampMs := 1
    validCount := fun _ => 100
    totalCount := 100
    coverageFails := false
    exportFails := false
    rawData := [[[10000]]]
    downloadedData := [[[1]]] }

/-- The scene the loop produces from `candGood` with post-processing on:
the shared affine tuple, the divided image, and the on-disk file holding the
cropped buffer. -/
def sceneGood : AcceptedScene :=
  { timestampMs := candGood.timestampMs
    coverage := coverageOf ["B2"] candGood
    transform := crsTransformOf 1 0 0
    imageSent := imgDivide10000 candGood.rawData
    file := Process_Downloaded_Imgs (crsTransformOf 1 0 0)
      ⟨candGood.downloadedData, crsTransformOf 1 0 0⟩ }

/-- The scene the loop produces from `candGood` with post-processing off:
the on-disk file is exactly the exported raster. -/
def sceneGoodRaw : AcceptedScene :=
  { timestampMs := candGood.timestampMs
    coverage := coverageOf ["B2"] candGood
    transform := crsTransformOf 1 0 0
    imageSent := imgDivide10000 candGood.rawData
    file := ⟨candGood.downloadedData, crsTransformOf 1 0 0⟩ }

theorem sliceInterior_length (l : List α) :
    (sliceInterior l).length = l.length - 2 := by
  simp [sliceInterior, Nat.sub_sub]

theorem sliceInterior_getElemOpt (l : List α) (i : Nat) (h : i < l.length - 2) :
    (sliceInterior l)[i]? = l[i + 1]? := by
  simp only [sliceInterior, List.dropLast_eq_take, List.length_drop,
    List.getElem?_take, List.getElem?_drop]
  rw [if_pos (by omega)]
  simp [Nat.add_comm]

theorem cropBorder_dims (data : List (List (List ℚ))) (b h w : Nat)
    (hd : HasDims data b h w) :
    HasDims (cropBorder data) b (h - 2) (w - 2) := by
  obtain ⟨hb, hplanes⟩ := hd
  refine ⟨by simpa [cropBorder] using hb, ?_⟩
  intro plane hplane
  rw [cropBorder, List.mem_map] at hplane
  obtain ⟨p, hp, rfl⟩ := hplane
  obtain ⟨hph, hrows⟩ := hplanes p hp
  constructor
  · simp [sliceInterior_length, hph]
  · intro row hrow
    rw [List.mem_map] at hrow
    obtain ⟨r, hr, rfl⟩ := hrow
    have hr' : r ∈ p := List.mem_of_mem_drop (List.dropLast_subset _ hr)
    simp [sliceInterior_length, hrows r hr']

theorem pixelAt_cropBorder (data : List (List (List ℚ))) (b h w : Nat)
    (hd : HasDims data b h w) (bi i j : Nat) (hi : i < h - 2) (hj : j < w - 2) :
    pixelAt (cropBorder data) bi i j = pixelAt data bi (i + 1) (j + 1) := by
  obtain ⟨hb, hplanes⟩ := hd
  unfold pixelAt cropBorder
  rw [List.getElem?_map]
  cases hcase : data[bi]? with
  | none => simp
  | some p =>
    have hpmem : p ∈ data := List.getElem?_mem hcase
    obtain ⟨hph, hrows⟩ := hplanes p hpmem
    simp only [Option.map_some', Option.some_bind]
    rw [List.getElem?_map, sliceInterior_getElemOpt p i (by omega)]
    cases hrcase : p[i + 1]? with
    | none => simp
    | some r =>
      have hrmem : r ∈ p := List.getElem?_mem hrcase
      simp only [Option.map_some', Option.some_bind]
      rw [sliceInterior_getElemOpt r j (by rw [hrows r hrmem]; omega)]

theorem pixelAt_imgDivide10000 (data : List (List (List ℚ))) (bi i j : Nat) :
    pixelAt (imgDivide10000 data) bi i j =
      Option.map (fun v => v / 10000) (pixelAt data bi i j) := by
  unfold pixelAt imgDivide10000
  rw [List.getElem?_map]
  cases data[bi]? with
  | none => simp
  | some p =>
    simp only [Option.map_some', Option.some_bind]
    rw [List.getElem?_map]
    cases p[i]? with
    | none => simp
    | some r =>
      simp only [Option.map_some', Option.some_bind]
      rw [List.getElem?_map]

theorem coverageOf_nonneg (bands : List String) (c : Candidate) :
    0 ≤ coverageOf bands c :=
  div_nonneg (Nat.cast_nonneg _) (Nat.cast_nonneg _)

theorem run_fst (bands : List String) (thr r lm lM : ℚ) (post : Bool)
    (c : Candidate) (rest : List Candidate)
    (hcf : c.coverageFails = false) (hef : c.exportFails = false) :
    (Sentinel2_TOA_Download bands thr r lm lM post (c :: rest)).1 =
      if thr ≤ coverageOf bands c then
        ({ timestampMs := c.timestampMs
           coverage := coverageOf bands c
           transform := crsTransformOf r lm lM
           imageSent := imgDivide10000 c.rawData
           file := if post then
               Process_Downloaded_Imgs (crsTransformOf r lm lM)
                 ⟨c.downloadedData, crsTransformOf r lm lM⟩
             else ⟨c.downloadedData, crsTransformOf r lm lM⟩ } : AcceptedScene)
          :: (Sentinel2_TOA_Download bands thr r lm lM post rest).1
      else (Sentinel2_TOA_Download bands thr r lm lM post rest).1 := by
  by_cases h : thr ≤ coverageOf bands c <;>
    simp [Sentinel2_TOA_Download, hcf, hef, coverageAccepted, h]

theorem run_mem_exists (bands : List String) (thr r lm lM : ℚ) (post : Bool) :
    ∀ cands : List Candidate,
      ∀ a ∈ (Sentinel2_TOA_Download bands thr r lm lM post cands).1,
        ∃ c ∈ cands, c.coverageFails = false ∧ c.exportFails = false ∧
          a.timestampMs = c.timestampMs ∧ a.coverage = coverageOf bands c ∧
          a.transform = crsTransformOf r lm lM ∧
          a.imageSent = imgDivide10000 c.rawData ∧
          a.file = (if post then
              Process_Downloaded_Imgs (crsTransformOf r lm lM)
                ⟨c.downloadedData, crsTransformOf r lm lM⟩
            else ⟨c.downloadedData, crsTransformOf r lm lM⟩) := by
  intro cands
  induction cands with
  | nil => intro a ha; simp [Sentinel2_TOA_Download] at ha
  | cons c rest ih =>
    intro a ha
    cases hcf : c.coverageFails with
    | true =>
      simp only [Sentinel2_TOA_Download, hcf] at ha
      simp at ha
    | false =>
      by_cases hacc : thr ≤ coverageOf bands c
      · cases hef : c.exportFails with
        | true =>
          simp only [Sentinel2_TOA_Download, hcf, hef, coverageAccepted] at ha
          simp [hacc] at ha
        | false =>
          rw [run_fst bands thr r lm lM post c rest hcf hef, if_pos hacc] at ha
          rcases List.mem_cons.mp ha with rfl | hmem
          · exact ⟨c, List.mem_cons_self c rest, hcf, hef, rfl, rfl, rfl, rfl, rfl⟩
          · obtain ⟨c2, hc2, props⟩ := ih a hmem
            exact ⟨c2, List.mem_cons_of_mem c hc2, props⟩
      · simp only [Sentinel2_TOA_Download, hcf, coverageAccepted,
          decide_eq_true_eq] at ha
        rw [if_neg hacc] at ha
        obtain ⟨c2, hc2, props⟩ := ih a ha
        exact ⟨c2, List.mem_cons_of_mem c hc2, props⟩

theorem run_sublist_of_le (bands : List String) (r lm lM : ℚ) (post : Bool)
    (t1 t2 : ℚ) (h12 : t1 ≤ t2) :
    ∀ cands : List Candidate,
      (∀ c ∈ cands, c.coverageFails = false ∧ c.exportFails = false) →
      ((Sentinel2_TOA_Download bands t2 r lm lM post cands).1).Sublist
        ((Sentinel2_TOA_Download bands t1 r lm lM post cands).1) := by
  intro cands
  induction cands with
  | nil => intro _; simp [Sentinel2_TOA_Download]
  | cons c rest ih =>
    intro hok
    have hc := hok c (List.mem_cons_self c rest)
    have hrest : ∀ c2 ∈ rest, c2.coverageFails = false ∧ c2.exportFails = false :=
      fun c2 hc2 => hok c2 (List.mem_cons_of_mem c hc2)
    rw [run_fst bands t2 r lm lM post c rest hc.1 hc.2,
      run_fst bands t1 r lm lM post c rest hc.1 hc.2]
    by_cases h2a : t2 ≤ coverageOf bands c
    · have h1a : t1 ≤ coverageOf bands c := le_trans h12 h2a
      rw [if_pos h2a, if_pos h1a]
      exact (ih hrest).cons₂ _
    · rw [if_neg h2a]
      by_cases h1a : t1 ≤ coverageOf bands c
      · rw [if_pos h1a]
        exact (ih hrest).cons _
      · rw [if_neg h1a]
        exact ih hrest

/-- C1: the source's post-processing writes the cropped buffer with the
transform tuple passed in, origin unchanged — it does not recompute the
origin to `(ox + sx, oy + sy)`.  Evaluated at the failing input
`T = (1, 0, 10, 0, -1, 20)`: the written transform maps pixel `(0, 0)` of
the cropped buffer to `(10, 20)`, while `T` maps pixel `(1, 1)` of the
original buffer to `(11, 19)`, so the two disagree and the raster is
shifted by one pixel. -/
theorem C1_transform_origin_not_recomputed :
    (Process_Downloaded_Imgs tEx fEx3).transform = tEx ∧
    GeoTransform.applyAt (Process_Downloaded_Imgs tEx fEx3).transform 0 0 =
      (10, 20) ∧
    GeoTransform.applyAt tEx 1 1 = (11, 19) ∧
    GeoTransform.applyAt (Process_Downloaded_Imgs tEx fEx3).transform 0 0 ≠
      GeoTransform.applyAt tEx 1 1 := by
  have ht : (Process_Downloaded_Imgs tEx fEx3).transform = tEx := rfl
  rw [ht]
  refine ⟨rfl, ?_, ?_, ?_⟩ <;>
    norm_num [GeoTransform.applyAt, tEx, Prod.ext_iff]

/-- C2 counterexample: on a one-band 2-by-2 buffer (height and width both
below 3), `Process_Downloaded_Imgs` raises no error and silently rewrites
the file with an emptied band plane — there is no `BufferTooSmall`
precondition check. -/
theorem C2_counterexample :
    Process_Downloaded_Imgs tEx fEx2 = ⟨[[]], tEx⟩ ∧
    (Process_Downloaded_Imgs tEx fEx2).data.length = 1 := by
  decide

/-- C2 (amended): no size precondition exists; for a buffer with height or
width below 3 the crop silently yields a degenerate buffer of shape
`(b, h - 2, w - 2)` (truncated subtraction, so an empty interior) and the
file is rewritten with it. -/
theorem C2_small_buffer_processed_silently (t : GeoTransform) (f : RasterFile)
    (b h w : Nat) (hd : HasDims f.data b h w) (hsmall : h < 3 ∨ w < 3) :
    HasDims (Process_Downloaded_Imgs t f).data b (h - 2) (w - 2) :=
  cropBorder_dims f.data b h w hd

/-- C2 witness: the amended statement applied to the concrete 2-by-2 file. -/
theorem C2_small_buffer_processed_silently_witness :
    HasDims (Process_Downloaded_Imgs tEx fEx2).data 1 0 0 :=
  C2_small_buffer_processed_silently tEx fEx2 1 2 2 (by decide)
    (Or.inl (by decide))

/-- C3 counterexample: with `bands = ['B3', 'B4']` the loop's coverage value
still counts band `'B2'` (hardcoded), not the first entry `'B3'`: on
`candB3` the code computes 1/2 while the spec's reference-band rule gives 1,
and with threshold 0.99 the code run downloads nothing. -/
theorem C3_counterexample :
    coverageOf ["B3", "B4"] candB3 ≠ coverageOfSpec ["B3", "B4"] candB3 ∧
    coverageOf ["B3", "B4"] candB3 = 1 / 2 ∧
    coverageOfSpec ["B3", "B4"] candB3 = 1 ∧
    (Sentinel2_TOA_Download ["B3", "B4"] (99 / 100) 1 0 0 true [candB3]).1 =
      [] := by
  have hne : ("B2" : String) ≠ "B3" := by decide
  refine ⟨?_, ?_, ?_, ?_⟩
  · norm_num [coverageOf, coverageOfSpec, candB3, hne]
  · norm_num [coverageOf, candB3, hne]
  · norm_num [coverageOfSpec, candB3]
  · rw [run_fst ["B3", "B4"] (99 / 100) 1 0 0 true candB3 [] rfl rfl,
      if_neg (by norm_num [coverageOf, candB3, hne])]
    simp [Sentinel2_TOA_Download]

/-- C3 (amended): the coverage evaluation always uses the hardcoded band
`'B2'` as the reference band, for every `bands` list; it coincides with the
first entry of `bands` exactly when that first entry is `'B2'`, as in the
default band list `['B2', 'B3', 'B4', 'B8']`. -/
theorem C3_reference_band_is_B2 (bands : List String) (c : Candidate)
    (hb : bands.headD "" = "B2") :
    coverageOf bands c = (c.validCount "B2" : ℚ) / (c.totalCount : ℚ) ∧
    coverageOf bands c = coverageOfSpec bands c := by
  refine ⟨rfl, ?_⟩
  cases bands with
  | nil => exact absurd hb (by decide)
  | cons a l =>
    simp only [List.headD_cons] at hb
    subst hb
    rfl

/-- C3 witness: on the default band list the hardcoded choice and the
first-entry rule agree. -/
theorem C3_reference_band_is_B2_witness :
    coverageOf ["B2", "B3", "B4", "B8"] candB3 =
      coverageOfSpec ["B2", "B3", "B4", "B8"] candB3 :=
  (C3_reference_band_is_B2 ["B2", "B3", "B4", "B8"] candB3 (by decide)).2

/-- C4: a candidate whose remote calls succeed is downloaded if and only if
its coverage value is at least the threshold, and in particular a coverage
value exactly equal to the threshold is accepted. -/
theorem C4_accept_iff_threshold (bands : List String) (thr r lm lM : ℚ)
    (post : Bool) (c : Candidate)
    (hcf : c.coverageFails = false) (hef : c.exportFails = false) :
    ((Sentinel2_TOA_Download bands thr r lm lM post [c]).1 ≠ [] ↔
      thr ≤ coverageOf bands c) ∧
    (coverageOf bands c = thr →
      (Sentinel2_TOA_Download bands thr r lm lM post [c]).1 ≠ []) := by
  have h1 : (Sentinel2_TOA_Download bands thr r lm lM post [c]).1 ≠ [] ↔
      thr ≤ coverageOf bands c := by
    rw [run_fst bands thr r lm lM post c [] hcf hef]
    by_cases h : thr ≤ coverageOf bands c
    · simp [h]
    · simp [h, Sentinel2_TOA_Download]
  exact ⟨h1, fun he => h1.mpr (le_of_eq he.symm)⟩

/-- C4 witness: with the threshold set to `candGood`'s own coverage value
the candidate sits exactly at the threshold and is accepted. -/
theorem C4_accept_iff_threshold_witness :
    (Sentinel2_TOA_Download ["B2"] (coverageOf ["B2"] candGood) 1 0 0 true
      [candGood]).1 ≠ [] :=
  (C4_accept_iff_threshold ["B2"] (coverageOf ["B2"] candGood) 1 0 0 true
    candGood rfl rfl).2 rfl

/-- C5 counterexample: a run whose first candidate fails during coverage
evaluation ends with the uncaught exception and downloads nothing, even
though the second candidate is fully covered — the same second candidate
alone yields one download. -/
theorem C5_counterexample :
    Sentinel2_TOA_Download ["B2"] (99 / 100) 1 0 0 true [candFail, candGood] =
      ([], some "ProviderUnavailable") ∧
    (Sentinel2_TOA_Download ["B2"] (99 / 100) 1 0 0 true [candGood]).1.length =
      1 := by
  constructor
  · simp [Sentinel2_TOA_Download, candFail]
  · rw [run_fst ["B2"] (99 / 100) 1 0 0 true candGood [] rfl rfl,
      if_pos (by norm_num [coverageOf, candGood])]
    simp [Sentinel2_TOA_Download]

/-- C5 (amended): the loop body has no exception handling, so a failure
while evaluating a candidate's coverage (or while exporting an accepted
candidate) aborts the enumeration: the exception propagates, no subsequent
candidate is evaluated, and no per-candidate failure report is produced. -/
theorem C5_failure_aborts_enumeration (bands : List String)
    (thr r lm lM : ℚ) (post : Bool) (c : Candidate) (rest : List Candidate) :
    (c.coverageFails = true →
      Sentinel2_TOA_Download bands thr r lm lM post (c :: rest) =
        ([], some "ProviderUnavailable")) ∧
    (c.coverageFails = false → c.exportFails = true →
      thr ≤ coverageOf bands c →
      Sentinel2_TOA_Download bands thr r lm lM post (c :: rest) =
        ([], some "ExportFailed")) := by
  constructor
  · intro h
    simp [Sentinel2_TOA_Download, h]
  · intro h1 h2 h3
    simp [Sentinel2_TOA_Download, h1, h2, coverageAccepted, h3]

/-- C5 witness: the amended statement applied to the failing candidate
followed by a good one. -/
theorem C5_failure_aborts_enumeration_witness :
    Sentinel2_TOA_Download ["B2"] (99 / 100) 1 0 0 true (candFail :: [candGood]) =
      ([], some "ProviderUnavailable") :=
  (C5_failure_aborts_enumeration ["B2"] (99 / 100) 1 0 0 true candFail
    [candGood]).1 rfl

/-- C6: every scene a run downloads carries the export transform
`(resample_resolution, 0, lon_min, 0, -resample_resolution, lat_max)`, so
any two accepted scenes of the same run carry identical transforms,
independent of the candidates' own data. -/
theorem C6_uniform_export_transform (bands : List String) (thr r lm lM : ℚ)
    (post : Bool) (cands : List Candidate) :
    (∀ a ∈ (Sentinel2_TOA_Download bands thr r lm lM post cands).1,
      a.transform = crsTransformOf r lm lM) ∧
    ∀ a ∈ (Sentinel2_TOA_Download bands thr r lm lM post cands).1,
      ∀ a2 ∈ (Sentinel2_TOA_Download bands thr r lm lM post cands).1,
        a.transform = a2.transform := by
  have h1 : ∀ a ∈ (Sentinel2_TOA_Download bands thr r lm lM post cands).1,
      a.transform = crsTransformOf r lm lM := by
    intro a ha
    obtain ⟨c, -, -, -, -, -, ht, -, -⟩ :=
      run_mem_exists bands thr r lm lM post cands a ha
    exact ht
  exact ⟨h1, fun a ha a2 ha2 => (h1 a ha).trans (h1 a2 ha2).symm⟩

/-- C6 witness: the scene downloaded from `candGood` carries the derived
transform. -/
theorem C6_uniform_export_transform_witness :
    sceneGood.transform = crsTransformOf 1 0 0 :=
  (C6_uniform_export_transform ["B2"] 0 1 0 0 true [candGood]).1 sceneGood
    (by rw [run_fst ["B2"] 0 1 0 0 true candGood [] rfl rfl,
          if_pos (coverageOf_nonneg ["B2"] candGood)]
        exact List.mem_cons_self _ _)

/-- C7: on a buffer of shape `(b, h, w)` with `h ≥ 3` and `w ≥ 3`,
post-processing removes exactly one row/column from each of the four edges
of every band plane: the result has shape `(b, h-2, w-2)` and its pixel
`(i, j)` in any band is the input's pixel `(i+1, j+1)`. -/
theorem C7_process_crops_one_pixel_border (t : GeoTransform) (f : RasterFile)
    (b h w : Nat) (hd : HasDims f.data b h w) (hh : 3 ≤ h) (hw : 3 ≤ w) :
    HasDims (Process_Downloaded_Imgs t f).data b (h - 2) (w - 2) ∧
    ∀ bi i j, i < h - 2 → j < w - 2 →
      pixelAt (Process_Downloaded_Imgs t f).data bi i j =
        pixelAt f.data bi (i + 1) (j + 1) :=
  ⟨cropBorder_dims f.data b h w hd,
   fun bi i j hi hj => pixelAt_cropBorder f.data b h w hd bi i j hi hj⟩

/-- C7 witness: the 3-by-3 file shrinks to a 1-by-1 interior whose single
pixel is the input's centre pixel. -/
theorem C7_process_crops_one_pixel_border_witness :
    HasDims (Process_Downloaded_Imgs tEx fEx3).data 1 1 1 ∧
    pixelAt (Process_Downloaded_Imgs tEx fEx3).data 0 0 0 =
      pixelAt fEx3.data 0 1 1 :=
  ⟨(C7_process_crops_one_pixel_border tEx fEx3 1 3 3 (by decide) (by decide)
      (by decide)).1,
   (C7_process_crops_one_pixel_border tEx fEx3 1 3 3 (by decide) (by decide)
      (by decide)).2 0 0 0 (by decide) (by decide)⟩

/-- C8: acceptance is monotone in the threshold: with all remote calls
succeeding, the scenes of a run at threshold `t2` form a sublist (hence a
subset) of the scenes of the same run at any threshold `t1 ≤ t2`. -/
theorem C8_threshold_monotone (bands : List String) (r lm lM : ℚ)
    (post : Bool) (cands : List Candidate)
    (hok : ∀ c ∈ cands, c.coverageFails = false ∧ c.exportFails = false)
    (t1 t2 : ℚ) (h12 : t1 ≤ t2) :
    ((Sentinel2_TOA_Download bands t2 r lm lM post cands).1).Sublist
      ((Sentinel2_TOA_Download bands t1 r lm lM post cands).1) ∧
    ∀ a ∈ (Sentinel2_TOA_Download bands t2 r lm lM post cands).1,
      a ∈ (Sentinel2_TOA_Download bands t1 r lm lM post cands).1 := by
  have hs := run_sublist_of_le bands r lm lM post t1 t2 h12 cands hok
  exact ⟨hs, fun a ha => hs.subset ha⟩

/-- C8 witness: the monotonicity statement applied to the singleton run. -/
theorem C8_threshold_monotone_witness :
    sceneGood ∈ (Sentinel2_TOA_Download ["B2"] 0 1 0 0 true [candGood]).1 :=
  (C8_threshold_monotone ["B2"] 1 0 0 true [candGood] (by decide) 0 0
    (le_refl 0)).2 sceneGood
    (by rw [run_fst ["B2"] 0 1 0 0 true candGood [] rfl rfl,
          if_pos (coverageOf_nonneg ["B2"] candGood)]
        exact List.mem_cons_self _ _)

/-- C9: every scene a run downloads was exported as some enumerated
candidate's clipped image with every digital number divided by 10000, and
nothing else: pixel by pixel, the exported value is the raw value divided
by 10000. -/
theorem C9_export_divides_by_10000 (bands : List String) (thr r lm lM : ℚ)
    (post : Bool) (cands : List Candidate) :
    ∀ a ∈ (Sentinel2_TOA_Download bands thr r lm lM post cands).1,
      ∃ c ∈ cands, a.imageSent = imgDivide10000 c.rawData ∧
        ∀ bi i j, pixelAt a.imageSent bi i j =
          Option.map (fun v => v / 10000) (pixelAt c.rawData bi i j) := by
  intro a ha
  obtain ⟨c, hc, -, -, -, -, -, him, -⟩ :=
    run_mem_exists bands thr r lm lM post cands a ha
  refine ⟨c, hc, him, fun bi i j => ?_⟩
  rw [him, pixelAt_imgDivide10000]

/-- C9 witness: the scene downloaded from `candGood` is its raw image
divided by 10000. -/
theorem C9_export_divides_by_10000_witness :
    ∃ c ∈ [candGood], sceneGood.imageSent = imgDivide10000 c.rawData ∧
      ∀ bi i j, pixelAt sceneGood.imageSent bi i j =
        Option.map (fun v => v / 10000) (pixelAt c.rawData bi i j) :=
  C9_export_divides_by_10000 ["B2"] 0 1 0 0 true [candGood] sceneGood
    (by rw [run_fst ["B2"] 0 1 0 0 true candGood [] rfl rfl,
          if_pos (coverageOf_nonneg ["B2"] candGood)]
        exact List.mem_cons_self _ _)

/-- C10: with `is_postprocess = False` (the parameter defaults to `True` in
the source), the file of every downloaded scene is exactly the raster the
export collaborator wrote, with the export transform — no cropping, no
transform rewrite, no rewrite of the file. -/
theorem C10_no_postprocess_leaves_file (bands : List String)
    (thr r lm lM : ℚ) (cands : List Candidate) :
    ∀ a ∈ (Sentinel2_TOA_Download bands thr r lm lM false cands).1,
      ∃ c ∈ cands, a.file = ⟨c.downloadedData, crsTransformOf r lm lM⟩ := by
  intro a ha
  obtain ⟨c, hc, -, -, -, -, -, -, hf⟩ :=
    run_mem_exists bands thr r lm lM false cands a ha
  exact ⟨c, hc, by simpa using hf⟩

/-- C10 witness: with post-processing off, `candGood`'s file on disk is the
exported raster unchanged. -/
theorem C10_no_postprocess_leaves_file_witness :
    ∃ c ∈ [candGood],
      sceneGoodRaw.file = ⟨c.downloadedData, crsTransformOf 1 0 0⟩ :=
  C10_no_postprocess_leaves_file ["B2"] 0 1 0 0 [candGood] sceneGoodRaw
    (by rw [run_fst ["B2"] 0 1 0 0 false candGood [] rfl rfl,
          if_pos (coverageOf_nonneg ["B2"] candGood)]
        exact List.mem_cons_self _ _)
